import Mathlib

/-! Verification development for the icebreakerone/provenance-service
repository.

The Python sources under src/ are shallowly embedded as executable Lean
definitions.  Effectful Python code (filesystem, S3, KMS, the ib1.provenance
library calls) is modelled by passing explicit environment records whose
fields stand for the outcomes of those external calls; `raise` is modelled by
the `Except` monad over an exception type mirroring the Python exception
classes involved.
-/

namespace ProvenanceService

/-- Exception classes that appear in the repository.  The module
app/exceptions.py is not part of src/; following the spec (§7) the domain
failures are distinct, typed exception classes, so each class is modelled as
its own constructor (in particular `ConfigurationError` and
`FrameworkAuthError` are not subclasses of `ValueError`).  Builtin Python
exceptions used by the code (ValueError, TypeError, FileNotFoundError and the
boto3 client error) get their own constructors as well.  The payload string
is the message, i.e. what str(exc) returns. -/
inductive PyExc where
  | valueError : String → PyExc
  | typeError : String → PyExc
  | fileNotFoundError : String → PyExc
  | clientError : String → PyExc
  | frameworkAuthError : String → PyExc
  | configurationError : String → PyExc
  | keyNotFoundError : String → PyExc
  | certificateNotFoundError : String → PyExc
  | trustFrameworkMismatch : String → PyExc
  | signatureInvalidError : String → PyExc
  | trustChainError : String → PyExc
  | stepNotFoundError : String → PyExc
  | runtimeError : String → PyExc
deriving DecidableEq, Repr

/-- Result of constructing a signer, mirroring app/keystores.py: either a
SignerKMS (certificate chain plus the KMS key id) or a SignerInMemory
(certificate chain plus the loaded private key).  Certificates and keys are
treated as opaque byte strings. -/
inductive Signer where
  | kms : List String → String → Signer
  | inMemory : List String → String → Signer
deriving DecidableEq, Repr

/-- Configuration values read from the environment by app/conf.py.  The first
four are plain os.environ.get results (None when unset); the last two carry
defaults in conf.py and are therefore always strings. -/
structure Conf where
  ROOT_CA_CERTIFICATE : Option String
  SIGNING_KEY : Option String
  SIGNING_BUNDLE : Option String
  KMS_KEY_ID : Option String
  SCHEME_URL : String
  TRUST_FRAMEWORK_URL : String
deriving DecidableEq, Repr

/-- Default TRUST_FRAMEWORK_URL from app/conf.py. -/
def defaultTrustFrameworkUrl : String :=
  "https://registry.core.sandbox.trust.ib1.org/trust-framework"

/-- Default SCHEME_URI from app/conf.py. -/
def defaultSchemeUrl : String :=
  "https://registry.core.sandbox.trust.ib1.org/scheme/perseus"

/-- Python truthiness of an optional string, as used in conditions such as
`if kms_key_id:` and `if not conf.ROOT_CA_CERTIFICATE:`: None and the empty
string are falsy. -/
def truthy : Option String → Bool
  | none => false
  | some s => !(s == "")

/-- Environment of external effects for app/keystores.py and the startup
code.  `files` models the local filesystem (path to contents), `s3` the
object store (bucket and key to contents), `kmsOk` whether SignerKMS
construction succeeds, `parseCerts` the outcome of
x509.load_pem_x509_certificates and `parseKey` the outcome of
serialization.load_pem_private_key.  `ssmParameters` models the managed
secret store (AWS SSM) named in the get_signer docstring strategy; the
translated function body never reads it (see claim C2). -/
structure AwsEnv where
  files : String → Option String
  s3 : String → String → Option String
  kmsOk : Bool
  ssmParameters : String → Option String
  parseCerts : String → Option (List String)
  parseKey : String → Option String

/-- Boolean test that the first list is an initial segment of the second. -/
def leadsWith : List Char → List Char → Bool
  | [], _ => true
  | _ :: _, [] => false
  | p :: ps, c :: cs => p == c && leadsWith ps cs

/-- Model of str.startswith. -/
def pyStartsWith (s pre : String) : Bool := leadsWith pre.toList s.toList

/-- Worker for pySplit: cuts the remaining characters at every
non-overlapping occurrence of the separator, scanning left to right.  The
fuel argument (one more than the number of remaining characters at the
first call) makes the recursion structural; the fuel-exhausted branch is
unreachable. -/
def splitSubAux (sep : List Char) : Nat → List Char → List Char → List (List Char)
  | 0, acc, rest => [acc.reverse ++ rest]
  | _ + 1, acc, [] => [acc.reverse]
  | fuel + 1, acc, c :: cs =>
    if leadsWith sep (c :: cs) then
      acc.reverse :: splitSubAux sep fuel [] (List.drop (sep.length - 1) cs)
    else
      splitSubAux sep fuel (c :: acc) cs

/-- Model of str.split(sep) for a nonempty separator. -/
def pySplit (s sep : String) : List String :=
  (splitSubAux sep.toList (s.toList.length + 1) [] s.toList).map String.mk

/-- Model of str.split(sep, 1): at most one cut, at the first occurrence of
the separator. -/
def pySplit1 (s sep : String) : List String :=
  match pySplit s sep with
  | [] => []
  | [x] => [x]
  | x :: xs => [x, String.intercalate sep xs]

/-- Embedding of get_certificate from app/keystores.py.  An s3 locator is
parsed exactly as the source does: certificate_path.split("s3://")[1] then
.split("/", 1); a single-element result of the second split makes the tuple
unpacking raise ValueError.  A missing S3 object surfaces as the boto3
client error and a missing local file as the builtin FileNotFoundError. -/
def get_certificate (certificate_path : String) (env : AwsEnv) : Except PyExc String :=
  if pyStartsWith certificate_path "s3://" then
    match (pySplit certificate_path "s3://").get? 1 with
    | none => Except.error (PyExc.valueError "list index out of range")
    | some rest =>
      match pySplit1 rest "/" with
      | [bucket, key] =>
        match env.s3 bucket key with
        | some body => Except.ok body
        | none => Except.error (PyExc.clientError "NoSuchKey")
      | _ => Except.error (PyExc.valueError "not enough values to unpack (expected 2, got 1)")
  else
    match env.files certificate_path with
    | some contents => Except.ok contents
    | none => Except.error (PyExc.fileNotFoundError certificate_path)

/-- Message of the KeyNotFoundError raised by get_signer. -/
def keyNotFoundMsg : String :=
  "Signing key not found in KMS or local file, check configuration."

/-- Embedding of get_signer from app/keystores.py.  It first loads and
parses the signing certificate bundle (failures propagate), then, when
KMS_KEY_ID is truthy, tries to construct a SignerKMS; any failure there is
logged and falls through.  It then opens the local file at conf.SIGNING_KEY,
translating FileNotFoundError into KeyNotFoundError, parses the private key
and returns a SignerInMemory. -/
def get_signer (conf : Conf) (env : AwsEnv) : Except PyExc Signer :=
  match conf.SIGNING_BUNDLE with
  | none => Except.error (PyExc.typeError "expected str, not NoneType")
  | some bundlePath =>
    match get_certificate bundlePath env with
    | Except.error e => Except.error e
    | Except.ok signer_chain_pem =>
      match env.parseCerts signer_chain_pem with
      | none => Except.error (PyExc.valueError "Unable to load PEM file.")
      | some certificates =>
        let fromLocalFile : Except PyExc Signer :=
          match conf.SIGNING_KEY with
          | none => Except.error (PyExc.typeError "expected str, not NoneType")
          | some keyPath =>
            match env.files keyPath with
            | none => Except.error (PyExc.keyNotFoundError keyNotFoundMsg)
            | some key_pem =>
              match env.parseKey key_pem with
              | none => Except.error (PyExc.valueError "Could not deserialize key data.")
              | some private_key => Except.ok (Signer.inMemory certificates private_key)
        if truthy conf.KMS_KEY_ID then
          if env.kmsOk then
            Except.ok (Signer.kms certificates (conf.KMS_KEY_ID.getD ""))
          else
            fromLocalFile
        else
          fromLocalFile

/-- Process-wide context built by the lifespan hook in src/main.py.  The
certificate provider is modelled by the root certificate bytes it wraps. -/
structure AppContext where
  certificate_provider : String
  signer : Signer
deriving DecidableEq, Repr

/-- Embedding of the lifespan startup hook in src/main.py: the two
configuration checks raise ValueError, then the certificate provider is
built from ROOT_CA_CERTIFICATE and the signer is resolved. -/
def lifespan (conf : Conf) (env : AwsEnv) : Except PyExc AppContext :=
  if !truthy conf.ROOT_CA_CERTIFICATE then
    Except.error (PyExc.valueError "ROOT_CA_CERTIFICATE is not set")
  else if !truthy conf.SIGNING_BUNDLE then
    Except.error (PyExc.valueError "SIGNING_BUNDLE is not set")
  else
    match get_certificate (conf.ROOT_CA_CERTIFICATE.getD "") env with
    | Except.error e => Except.error e
    | Except.ok rootPem =>
      match get_signer conf env with
      | Except.error e => Except.error e
      | Except.ok signer =>
        Except.ok { certificate_provider := rootPem, signer := signer }

/-- Decimal digit character of n mod 10. -/
def digit (n : Nat) : Char := Nat.digitChar (n % 10)

/-- Two-digit zero-padded rendering, as characters (the form used by
datetime for months, days, hours, minutes, seconds and offsets). -/
def pad2 (n : Nat) : List Char := [digit (n / 10), digit n]

/-- Four-digit zero-padded rendering of the year. -/
def pad4 (n : Nat) : List Char :=
  [digit (n / 1000), digit (n / 100), digit (n / 10), digit n]

/-- Six-digit zero-padded rendering of the microseconds. -/
def pad6 (n : Nat) : List Char :=
  [digit (n / 100000), digit (n / 10000), digit (n / 1000),
   digit (n / 100), digit (n / 10), digit n]

/-- Model of datetime.date. -/
structure PyDate where
  year : Nat
  month : Nat
  day : Nat
deriving DecidableEq, Repr

/-- Characters of date.isoformat(): YYYY-MM-DD. -/
def PyDate.isoformatChars (d : PyDate) : List Char :=
  pad4 d.year ++ ['-'] ++ pad2 d.month ++ ['-'] ++ pad2 d.day

/-- Model of date.isoformat(). -/
def PyDate.isoformat (d : PyDate) : String := String.mk d.isoformatChars

/-- Model of datetime.datetime.  `utcoffsetMinutes` is the timezone offset
in whole minutes; none models a naive datetime. -/
structure PyDatetime where
  year : Nat
  month : Nat
  day : Nat
  hour : Nat
  minute : Nat
  second : Nat
  microsecond : Nat
  utcoffsetMinutes : Option Int
deriving DecidableEq, Repr

/-- Characters of the UTC-offset suffix +HH:MM or -HH:MM appended by
datetime.isoformat() for an aware datetime with a whole-minute offset. -/
def offsetChars (o : Int) : List Char :=
  (if o < 0 then ['-'] else ['+']) ++ pad2 (o.natAbs / 60) ++ [':'] ++ pad2 (o.natAbs % 60)

/-- Characters of the date-and-time part YYYY-MM-DDTHH:MM:SS of
datetime.isoformat(), before any fractional seconds or offset. -/
def PyDatetime.baseChars (dt : PyDatetime) : List Char :=
  pad4 dt.year ++ ['-'] ++ pad2 dt.month ++ ['-'] ++ pad2 dt.day ++ ['T'] ++
  pad2 dt.hour ++ [':'] ++ pad2 dt.minute ++ [':'] ++ pad2 dt.second

/-- Characters of datetime.isoformat(): the base, then .ffffff exactly when
the microsecond field is nonzero, then the offset exactly when the datetime
is aware. -/
def PyDatetime.isoformatChars (dt : PyDatetime) : List Char :=
  dt.baseChars
    ++ (if dt.microsecond == 0 then [] else ['.'] ++ pad6 dt.microsecond)
    ++ (match dt.utcoffsetMinutes with
        | none => []
        | some o => offsetChars o)

/-- Model of datetime.isoformat(). -/
def PyDatetime.isoformat (dt : PyDatetime) : String := String.mk dt.isoformatChars

/-- Model of the source expression f-string of isoformat()[0:-7] with a
letter Z appended, used for every timestamp and expires field in
app/provenance.py.  Python slicing counts characters, so it is modelled on
the character list. -/
def pyTruncZ (dt : PyDatetime) : String :=
  String.mk (dt.isoformatChars.take (dt.isoformatChars.length - 7) ++ ['Z'])

/-- Model of the source expression f-string of date.isoformat() with a
letter Z appended. -/
def pyDateZ (d : PyDate) : String := String.mk (d.isoformatChars ++ ['Z'])

/-- JSON-like step payloads, as passed to Record.add_step by
app/provenance.py. -/
inductive Json where
  | str : String → Json
  | bool : Bool → Json
  | arr : List Json → Json
  | obj : List (String × Json) → Json

instance : Inhabited Json := ⟨Json.obj []⟩

/-- Look up a key of a JSON object (first binding wins), used to state
properties about payload fields. -/
def jsonField (p : Json) (k : String) : Option Json :=
  match p with
  | Json.obj fields =>
    match fields.find? (fun kv => kv.1 == k) with
    | some kv => some kv.2
    | none => none
  | _ => none

/-- A step of a chain: a stable identifier plus its payload.  Modelled from
the spec: §3 Step (the signature envelope metadata is not modelled). -/
structure Step where
  id : String
  payload : Json

instance : Inhabited Step := ⟨⟨"", Json.obj []⟩⟩

/-- The encoded chain artifact: the trust framework id is stored under the
key called ib1:provenance (src/main.py reads record_encoded at that key)
together with the ordered steps.  Modelled from the spec: §6 Encoded Chain
artifact; signature envelopes are not modelled. -/
structure Encoded where
  ib1Provenance : String
  steps : List Step

instance : Inhabited Encoded := ⟨⟨"", []⟩⟩

/-- In-memory state of an ib1.provenance Record. -/
structure RecordState where
  trustFramework : String
  steps : List Step

/-- Outcome of Record.verify against the certificate provider, which is
external cryptography: per spec §4.5 it either completes, or raises
SignatureInvalidError or TrustChainError. -/
inductive VerifyOutcome where
  | ok
  | sigInvalid : String → VerifyOutcome
  | trustChain : String → VerifyOutcome
deriving DecidableEq, Repr

/-- Environment for the ib1.provenance library calls made by one request:
the verification outcome for the supplied record and the structural match
relation of Record.find_step (criteria against a step payload), both of
which live outside src/. -/
structure LibEnv where
  verifyOutcome : VerifyOutcome
  stepMatches : Json → Json → Bool

/-- Unary rendering of a number of appended steps, used to make fresh step
identifiers whose construction is structural. -/
def natTag : Nat → List Char
  | 0 => []
  | n + 1 => 'i' :: natTag n

/-- Fresh step identifier assigned at append time, distinct for each
position in the chain.  Modelled from the spec: §4.1, appendStep assigns a
fresh id and returns it; the concrete shape of the id is opaque to the
workflows, which only pass returned ids along. -/
def freshId (st : RecordState) : String := String.mk ('s' :: natTag st.steps.length)

/-- Record construction with no prior chain: an empty step list.  Modelled
from the spec: §4.1 newChain starting an empty chain. -/
def Record.new (tf : String) : RecordState :=
  { trustFramework := tf, steps := [] }

/-- Message of the TrustFrameworkMismatch failure of Record construction. -/
def tfMismatchMsg : String := "Trust framework of encoded record does not match"

/-- Record construction from a previously encoded artifact.  Modelled from
the spec: §4.1 newChain with a prior encoded chain fails with
TrustFrameworkMismatch if the embedded id differs from the supplied one,
otherwise exposes the decoded steps. -/
def Record.fromEncoded (tf : String) (prior : Encoded) : Except PyExc RecordState :=
  if prior.ib1Provenance == tf then
    Except.ok { trustFramework := tf, steps := prior.steps }
  else
    Except.error (PyExc.trustFrameworkMismatch tfMismatchMsg)

/-- Record.add_step: appends a step with a fresh id and returns the id.
Modelled from the spec: §4.1 appendStep (its reference validation is
deliberately not modelled here, so that reference integrity of the appended
payloads is a property of the workflows, not an assumption). -/
def add_step (st : RecordState) (payload : Json) : String × RecordState :=
  let i := freshId st
  (i, { st with steps := st.steps ++ [{ id := i, payload := payload }] })

/-- Record.find_step: first step in chain order whose payload matches the
criteria, StepNotFoundError when none does.  Modelled from the spec: §4.5
findStep returning the first match in chain order; the structural match
itself is the library's and is abstracted by the environment. -/
def find_step (env : LibEnv) (st : RecordState) (criteria : Json) : Except PyExc Step :=
  match st.steps.find? (fun s => env.stepMatches criteria s.payload) with
  | some s => Except.ok s
  | none => Except.error (PyExc.stepNotFoundError "Step not found")

/-- Record.verify against the certificate provider.  Modelled from the
spec: §4.5; the cryptographic outcome is the environment's. -/
def verifyRecord (env : LibEnv) (_st : RecordState) : Except PyExc Unit :=
  match env.verifyOutcome with
  | VerifyOutcome.ok => Except.ok ()
  | VerifyOutcome.sigInvalid m => Except.error (PyExc.signatureInvalidError m)
  | VerifyOutcome.trustChain m => Except.error (PyExc.trustChainError m)

/-- Record.sign followed by .encoded(): seals the current steps into the
portable artifact.  Modelled from the spec: §4.4 seal and encode; signature
envelopes are not modelled, step order and fields are preserved. -/
def Record.encoded (st : RecordState) : Encoded :=
  { ib1Provenance := st.trustFramework, steps := st.steps }

/-- Record.decoded(): the decoded step payloads, in order. -/
def Record.decoded (st : RecordState) : List Json :=
  st.steps.map Step.payload

/-- Arguments of create_edp_provenance_record (the signer is not a value
the workflow inspects and is omitted; signing is modelled in
Record.encoded). -/
structure EdpInputs where
  from_date : PyDate
  to_date : PyDate
  permission_granted : PyDatetime
  permission_expires : PyDatetime
  service_url : String
  account : String
  fapi_id : String
  cap_member : String
  origin_url : String
  origin_license_url : String

/-- Permission step payload of create_edp_provenance_record
(src/app/provenance.py lines 31-42). -/
def edp_permission_payload (conf : Conf) (inp : EdpInputs) : Json :=
  Json.obj
    [("type", Json.str "permission"),
     ("scheme", Json.str conf.SCHEME_URL),
     ("timestamp", Json.str (pyTruncZ inp.permission_granted)),
     ("account", Json.str inp.account),
     ("allows", Json.obj
       [("licences", Json.arr
         [Json.str (conf.SCHEME_URL ++ "/licence/energy-consumption-data/2024-12-05")])]),
     ("expires", Json.str (pyTruncZ inp.permission_expires))]

/-- Origin step payload of create_edp_provenance_record
(src/app/provenance.py lines 43-62). -/
def edp_origin_payload (conf : Conf) (inp : EdpInputs) (edp_permission_id : String) : Json :=
  Json.obj
    [("type", Json.str "origin"),
     ("scheme", Json.str conf.SCHEME_URL),
     ("sourceType", Json.str (conf.SCHEME_URL ++ "/source-type/Meter")),
     ("origin", Json.str inp.origin_url),
     ("originLicence", Json.str inp.origin_license_url),
     ("external", Json.bool true),
     ("permissions", Json.arr [Json.str edp_permission_id]),
     ("perseus:scheme", Json.obj
       [("meteringPeriod", Json.obj
         [("from", Json.str (pyDateZ inp.from_date)),
          ("to", Json.str (pyDateZ inp.to_date))])]),
     ("perseus:assurance", Json.obj
       [("dataSource", Json.str (conf.SCHEME_URL ++ "/assurance/data-source/SmartMeter"))])]

/-- Transfer step payload of create_edp_provenance_record
(src/app/provenance.py lines 65-83). -/
def edp_transfer_payload (conf : Conf) (inp : EdpInputs)
    (origin_id edp_permission_id : String) : Json :=
  Json.obj
    [("type", Json.str "transfer"),
     ("scheme", Json.str conf.SCHEME_URL),
     ("of", Json.str origin_id),
     ("to", Json.str inp.cap_member),
     ("standard", Json.str (conf.SCHEME_URL ++ "/standard/energy-consumption-data/2024-12-05")),
     ("licence", Json.str (conf.SCHEME_URL ++ "/licence/energy-consumption-data/2024-12-05")),
     ("service", Json.str inp.service_url),
     ("path", Json.str "/readings"),
     ("parameters", Json.obj
       [("measure", Json.str "import"),
        ("from", Json.str (pyDateZ inp.from_date)),
        ("to", Json.str (pyDateZ inp.to_date))]),
     ("permissions", Json.arr [Json.str edp_permission_id]),
     ("transaction", Json.str inp.fapi_id)]

/-- Embedding of create_edp_provenance_record from src/app/provenance.py:
a fresh Record, a permission step, an origin step referencing it, a
transfer step referencing both, then sign and encode. -/
def create_edp_provenance_record (conf : Conf) (inp : EdpInputs) : Encoded :=
  let edp_record := Record.new conf.TRUST_FRAMEWORK_URL
  let r1 := add_step edp_record (edp_permission_payload conf inp)
  let edp_permission_id := r1.1
  let r2 := add_step r1.2 (edp_origin_payload conf inp edp_permission_id)
  let origin_id := r2.1
  let r3 := add_step r2.2 (edp_transfer_payload conf inp origin_id edp_permission_id)
  Record.encoded r3.2

/-- Arguments of create_cap_provenance_record (again without the signer and
the certificate provider values themselves; their effects are in LibEnv). -/
structure CapInputs where
  edp_data_attachment : Encoded
  cap_member_id : String
  bank_member_id : String
  cap_account : String
  cap_permission_granted : PyDatetime
  cap_permission_expires : PyDatetime
  grid_intensity_origin : String
  grid_intensity_license : String
  postcode : String
  edp_service_url : String
  edp_member_id : String
  bank_service_url : String
  from_date : PyDate
  to_date : PyDate

/-- Search criteria for the EDP transfer step
(src/app/provenance.py lines 164-183). -/
def cap_search_criteria (conf : Conf) (inp : CapInputs) : Json :=
  Json.obj
    [("type", Json.str "transfer"),
     ("scheme", Json.str conf.SCHEME_URL),
     ("to", Json.str inp.cap_member_id),
     ("standard", Json.str (conf.SCHEME_URL ++ "/standard/energy-consumption-data/2024-12-05")),
     ("licence", Json.str (conf.SCHEME_URL ++ "/licence/energy-consumption-data/2024-12-05")),
     ("service", Json.str inp.edp_service_url),
     ("path", Json.str "/readings"),
     ("parameters", Json.obj
       [("measure", Json.str "import"),
        ("from", Json.str (pyDateZ inp.from_date)),
        ("to", Json.str (pyDateZ inp.to_date))]),
     ("_signature", Json.obj
       [("signed", Json.obj
         [("member", Json.str inp.edp_member_id),
          ("roles", Json.arr
            [Json.str (conf.SCHEME_URL ++ "/role/carbon-accounting-provider")])])])]

/-- Receipt step payload (src/app/provenance.py lines 189-191). -/
def cap_receipt_payload (transfer_id : String) : Json :=
  Json.obj [("type", Json.str "receipt"), ("transfer", Json.str transfer_id)]

/-- CAP permission step payload (src/app/provenance.py lines 194-208). -/
def cap_permission_payload (conf : Conf) (inp : CapInputs) : Json :=
  Json.obj
    [("type", Json.str "permission"),
     ("scheme", Json.str conf.SCHEME_URL),
     ("timestamp", Json.str (pyTruncZ inp.cap_permission_granted)),
     ("account", Json.str inp.cap_account),
     ("allows", Json.obj
       [("licenses", Json.arr
         [Json.str (conf.SCHEME_URL ++ "/license/emissions-report/2024-12-05")]),
        ("processes", Json.arr
         [Json.str (conf.SCHEME_URL ++ "/process/emissions-calculations/2024-12-05")])]),
     ("expires", Json.str (pyTruncZ inp.cap_permission_expires))]

/-- Grid intensity origin step payload (src/app/provenance.py lines
211-230). -/
def cap_intensity_payload (conf : Conf) (inp : CapInputs) : Json :=
  Json.obj
    [("type", Json.str "origin"),
     ("scheme", Json.str conf.SCHEME_URL),
     ("sourceType", Json.str (conf.SCHEME_URL ++ "/source-type/GridCarbonIntensity")),
     ("origin", Json.str inp.grid_intensity_origin),
     ("originLicense", Json.str inp.grid_intensity_license),
     ("external", Json.bool true),
     ("perseus:scheme", Json.obj
       [("meteringPeriod", Json.obj
         [("from", Json.str (pyDateZ inp.from_date)),
          ("to", Json.str (pyDateZ inp.to_date))]),
        ("postcode", Json.str inp.postcode)]),
     ("perseus:assurance", Json.obj
       [("missingData", Json.str (conf.SCHEME_URL ++ "/assurance/missing-data/Complete"))])]

/-- Processing step payload (src/app/provenance.py lines 233-244). -/
def cap_process_payload (conf : Conf)
    (cap_receipt_id cap_intensity_origin_id cap_permission_id : String) : Json :=
  Json.obj
    [("type", Json.str "process"),
     ("scheme", Json.str conf.SCHEME_URL),
     ("inputs", Json.arr [Json.str cap_receipt_id, Json.str cap_intensity_origin_id]),
     ("process", Json.str (conf.SCHEME_URL ++ "/process/emissions-calculations/2024-12-05")),
     ("permissions", Json.arr [Json.str cap_permission_id]),
     ("perseus:assurance", Json.obj
       [("missingData", Json.str (conf.SCHEME_URL ++ "/assurance/missing-data/Substituted"))])]

/-- Transfer-to-bank step payload (src/app/provenance.py lines 247-263). -/
def cap_transfer_payload (conf : Conf) (inp : CapInputs)
    (cap_processing_id cap_permission_id : String) : Json :=
  Json.obj
    [("type", Json.str "transfer"),
     ("scheme", Json.str conf.SCHEME_URL),
     ("of", Json.str cap_processing_id),
     ("to", Json.str inp.bank_member_id),
     ("standard", Json.str (conf.SCHEME_URL ++ "/standard/emissions-report/2024-12-05")),
     ("licence", Json.str (conf.SCHEME_URL ++ "/licence/emissions-report/2024-12-05")),
     ("service", Json.str inp.bank_service_url),
     ("path", Json.str "/emissions"),
     ("parameters", Json.obj
       [("from", Json.str (pyDateZ inp.from_date)),
        ("to", Json.str (pyDateZ inp.to_date))]),
     ("permissions", Json.arr [Json.str cap_permission_id])]

/-- Operations on the reconstructed record, in the order the workflow
performs them.  Event.verified is emitted only when Record.verify returned
without raising. -/
inductive Event where
  | verified
  | stepFound
  | stepAdded
  | signed
deriving DecidableEq, Repr

/-- Embedding of create_cap_provenance_record from src/app/provenance.py,
instrumented with the sequence of operations it performs on the
reconstructed record: Record construction from the EDP attachment, verify,
find the EDP transfer step, then append receipt, CAP permission, grid
intensity origin, processing and transfer-to-bank steps, then sign and
encode.  Any raise propagates, ending the run at that point. -/
def create_cap_provenance_record (conf : Conf) (inp : CapInputs) (env : LibEnv) :
    List Event × Except PyExc Encoded :=
  match Record.fromEncoded conf.TRUST_FRAMEWORK_URL inp.edp_data_attachment with
  | Except.error e => ([], Except.error e)
  | Except.ok cap_record =>
    match verifyRecord env cap_record with
    | Except.error e => ([], Except.error e)
    | Except.ok _ =>
      match find_step env cap_record (cap_search_criteria conf inp) with
      | Except.error e => ([Event.verified], Except.error e)
      | Except.ok transfer_from_edp_step =>
        let a1 := add_step cap_record (cap_receipt_payload transfer_from_edp_step.id)
        let cap_receipt_id := a1.1
        let a2 := add_step a1.2 (cap_permission_payload conf inp)
        let cap_permission_id := a2.1
        let a3 := add_step a2.2 (cap_intensity_payload conf inp)
        let cap_intensity_origin_id := a3.1
        let a4 := add_step a3.2
          (cap_process_payload conf cap_receipt_id cap_intensity_origin_id cap_permission_id)
        let cap_processing_id := a4.1
        let a5 := add_step a4.2
          (cap_transfer_payload conf inp cap_processing_id cap_permission_id)
        ([Event.verified, Event.stepFound, Event.stepAdded, Event.stepAdded,
          Event.stepAdded, Event.stepAdded, Event.stepAdded, Event.signed],
         Except.ok (Record.encoded a5.2))

/-- Embedding of the decode endpoint of src/main.py: the Record is
reconstructed passing record_encoded at key ib1:provenance as the trust
framework id together with the artifact itself, verified against the
process-wide certificate provider, and its decoded steps returned. -/
def decode_provenance_record (record_encoded : Encoded) (env : LibEnv) :
    Except PyExc (List Json) :=
  match Record.fromEncoded record_encoded.ib1Provenance record_encoded with
  | Except.error e => Except.error e
  | Except.ok record =>
    match verifyRecord env record with
    | Except.error e => Except.error e
    | Except.ok _ => Except.ok (Record.decoded record)

/-- An HTTP error response raised by the endpoint error translator. -/
structure HttpResponse where
  status_code : Nat
  detail : String
deriving DecidableEq, Repr

/-- Embedding of the endpoint error translator of src/main.py: ValueError
and FrameworkAuthError become 400 with str(exc) as detail (or a fallback
when the message is empty), ConfigurationError becomes 503 with a fixed
detail, and everything else becomes 500 with a fixed generic detail. -/
def handle_endpoint_exception (action : String) (exc : PyExc) : HttpResponse :=
  match exc with
  | PyExc.valueError m =>
    { status_code := 400,
      detail := if m == "" then "Unable to " ++ action ++ " due to invalid input." else m }
  | PyExc.frameworkAuthError m =>
    { status_code := 400,
      detail := if m == "" then "Unable to " ++ action ++ " due to invalid input." else m }
  | PyExc.configurationError _ =>
    { status_code := 503,
      detail := "Signing service is not properly configured. Please try again later." }
  | _ =>
    { status_code := 500, detail := "Unable to " ++ action ++ " at this time." }

/-- Strings held by a JSON value in reference position: a string itself, or
each string of an array. -/
def refStrings : Json → List String
  | Json.str s => [s]
  | Json.arr l =>
    l.foldr (fun v acc =>
      (match v with
       | Json.str s => [s]
       | _ => []) ++ acc) []
  | _ => []

/-- Step ids referenced by a payload.  Modelled from the spec: §3, the
references of a step are the ids it declares in its of field (transfer),
its transfer field (receipt), its permissions lists and its inputs list
(process). -/
def refsOf : Json → List String
  | Json.obj fields =>
    fields.foldr (fun kv acc =>
      if kv.1 == "of" || kv.1 == "transfer" || kv.1 == "permissions" || kv.1 == "inputs" then
        refStrings kv.2 ++ acc
      else acc) []
  | _ => []

/-- Step ids referenced by a step. -/
def stepRefs (s : Step) : List String := refsOf s.payload

/-- Boolean membership in a list of strings. -/
def memStr (r : String) : List String → Bool
  | [] => false
  | x :: xs => x == r || memStr r xs

/-- Checks that, walking a suffix of a chain in order, every reference of
every step resolves among the ids seen so far: the ids of the steps
strictly earlier in the chain (the accumulator starts from the ids of the
part of the chain that precedes the suffix). -/
def checkRefs (seen : List String) : List Step → Bool
  | [] => true
  | s :: rest => (stepRefs s).all (fun r => memStr r seen) && checkRefs (seen ++ [s.id]) rest

/-- Checks that every stepAdded operation in a trace is strictly preceded
by a verified operation (the flag records whether a non-raising verify has
already happened). -/
def appendAfterVerify (seenVerify : Bool) : List Event → Bool
  | [] => true
  | Event.verified :: tr => appendAfterVerify true tr
  | Event.stepAdded :: tr => seenVerify && appendAfterVerify seenVerify tr
  | _ :: tr => appendAfterVerify seenVerify tr

/-- Whether a get_certificate outcome is a raised CertificateNotFoundError. -/
def raisesCertificateNotFound : Except PyExc String → Bool
  | Except.error (PyExc.certificateNotFoundError _) => true
  | _ => false

/-- Whether a startup outcome is a raised ConfigurationError. -/
def raisesConfigurationError : Except PyExc AppContext → Bool
  | Except.error (PyExc.configurationError _) => true
  | _ => false

/-- Client-input exception classes of the endpoint error translator. -/
def isClientClass : PyExc → Bool
  | PyExc.valueError _ => true
  | PyExc.frameworkAuthError _ => true
  | _ => false

/-- Configuration exception class of the endpoint error translator. -/
def isConfigClass : PyExc → Bool
  | PyExc.configurationError _ => true
  | _ => false

/-- Helper for isIso8601Zulu: at least one digit followed by a final Z. -/
def digitsThenZ (seenDigit : Bool) : List Char → Bool
  | ['Z'] => seenDigit
  | c :: rest => c.isDigit && digitsThenZ true rest
  | [] => false

/-- Syntactic validity of a UTC ISO-8601 timestamp of the form
YYYY-MM-DDTHH:MM:SSZ, optionally with a dot and at least one fractional
digit before the Z. -/
def isIso8601Zulu (s : String) : Bool :=
  match s.toList with
  | y1 :: y2 :: y3 :: y4 :: '-' :: m1 :: m2 :: '-' :: d1 :: d2 :: 'T' ::
    h1 :: h2 :: ':' :: n1 :: n2 :: ':' :: s1 :: s2 :: rest =>
    ([y1, y2, y3, y4, m1, m2, d1, d2, h1, h2, n1, n2, s1, s2].all Char.isDigit) &&
    (match rest with
     | ['Z'] => true
     | '.' :: ds => digitsThenZ false ds
     | _ => false)
  | _ => false

/-- Whether the last seven characters of a string are a fractional-seconds
suffix: a dot followed by six digits. -/
def endsInSevenCharFrac (s : String) : Bool :=
  match s.toList.reverse with
  | c1 :: c2 :: c3 :: c4 :: c5 :: c6 :: c7 :: _ =>
    c7 == '.' && ([c1, c2, c3, c4, c5, c6].all Char.isDigit)
  | _ => false

/-! Concrete fixtures used by witnesses and counterexamples. -/

/-- A configuration with all locators set to local paths and KMS unset. -/
def conf0 : Conf :=
  { ROOT_CA_CERTIFICATE := some "/etc/certs/root.pem",
    SIGNING_KEY := some "/keys/signing-key.pem",
    SIGNING_BUNDLE := some "/etc/certs/signing-bundle.pem",
    KMS_KEY_ID := none,
    SCHEME_URL := defaultSchemeUrl,
    TRUST_FRAMEWORK_URL := defaultTrustFrameworkUrl }

/-- A filesystem and object store holding the two certificate files of
conf0 but no signing key file, with well-behaved PEM parsers. -/
def fsEnv0 : AwsEnv :=
  { files := fun p =>
      if p == "/etc/certs/root.pem" then some "ROOT-PEM"
      else if p == "/etc/certs/signing-bundle.pem" then some "BUNDLE-PEM"
      else none,
    s3 := fun b k =>
      if b == "certs-bucket" && k == "pems/root.pem" then some "S3-PEM" else none,
    kmsOk := true,
    ssmParameters := fun _ => none,
    parseCerts := fun s => some [s],
    parseKey := fun s => some s }

/-- Like conf0, but with SIGNING_KEY naming a managed secret-store
parameter rather than a file that exists. -/
def confC2 : Conf := { conf0 with SIGNING_KEY := some "provenance-signing-key" }

/-! Claim theorems. -/

/-- C2 theorem (code bug evidence): with KMS unconfigured and no local file
at SIGNING_KEY, get_signer raises KeyNotFoundError whatever the managed
secret store contains - in particular even when the store holds key
material under the configured parameter name.  The secret-store tier of
the documented strategy is never consulted. -/
theorem C2_secret_store_never_consulted :
    ∀ (ssm : String → Option String),
      get_signer confC2 { fsEnv0 with ssmParameters := ssm } =
        Except.error (PyExc.keyNotFoundError keyNotFoundMsg) :=
  fun _ => rfl

/-- C5 counterexample: a local path that cannot be read makes
get_certificate fail with the builtin FileNotFoundError, not with
CertificateNotFoundError as the claim states. -/
theorem C5_counterexample :
    get_certificate "/missing/cert.pem" fsEnv0 =
      Except.error (PyExc.fileNotFoundError "/missing/cert.pem")
  ∧ raisesCertificateNotFound (get_certificate "/missing/cert.pem" fsEnv0) = false :=
  ⟨rfl, rfl⟩

/-- C5 amended: get_certificate accepts either an s3 locator or a local
path and returns exactly the stored bytes for both; an unreadable local
path fails with the builtin FileNotFoundError and an unreadable object
reference fails with the storage client's error - neither is wrapped into
CertificateNotFoundError. -/
theorem C5_amended :
    (∀ (env : AwsEnv) (path contents : String),
        pyStartsWith path "s3://" = false → env.files path = some contents →
        get_certificate path env = Except.ok contents)
  ∧ (∀ (env : AwsEnv) (path : String),
        pyStartsWith path "s3://" = false → env.files path = none →
        get_certificate path env = Except.error (PyExc.fileNotFoundError path))
  ∧ (∀ (env : AwsEnv) (path rest bucket key contents : String),
        pyStartsWith path "s3://" = true →
        (pySplit path "s3://").get? 1 = some rest →
        pySplit1 rest "/" = [bucket, key] →
        env.s3 bucket key = some contents →
        get_certificate path env = Except.ok contents)
  ∧ (∀ (env : AwsEnv) (path rest bucket key : String),
        pyStartsWith path "s3://" = true →
        (pySplit path "s3://").get? 1 = some rest →
        pySplit1 rest "/" = [bucket, key] →
        env.s3 bucket key = none →
        get_certificate path env = Except.error (PyExc.clientError "NoSuchKey")) := by
  refine ⟨?_, ?_, ?_, ?_⟩
  · intro env path contents hs hf
    simp [get_certificate, hs, hf]
  · intro env path hs hf
    simp [get_certificate, hs, hf]
  · intro env path rest bucket key contents hs h1 h2 h3
    rw [List.get?_eq_getElem?] at h1
    simp [get_certificate, hs, h1, h2, h3]
  · intro env path rest bucket key hs h1 h2 h3
    rw [List.get?_eq_getElem?] at h1
    simp [get_certificate, hs, h1, h2, h3]

/-- C5 witness: the amended statement at concrete locators of both kinds. -/
theorem C5_amended_witness :
    get_certificate "/etc/certs/root.pem" fsEnv0 = Except.ok "ROOT-PEM"
  ∧ get_certificate "/missing/other.pem" fsEnv0 =
      Except.error (PyExc.fileNotFoundError "/missing/other.pem")
  ∧ get_certificate "s3://certs-bucket/pems/root.pem" fsEnv0 = Except.ok "S3-PEM"
  ∧ get_certificate "s3://certs-bucket/pems/absent.pem" fsEnv0 =
      Except.error (PyExc.clientError "NoSuchKey") :=
  ⟨C5_amended.1 fsEnv0 "/etc/certs/root.pem" "ROOT-PEM" rfl rfl,
   C5_amended.2.1 fsEnv0 "/missing/other.pem" rfl rfl,
   C5_amended.2.2.1 fsEnv0 "s3://certs-bucket/pems/root.pem" "certs-bucket/pems/root.pem"
     "certs-bucket" "pems/root.pem" "S3-PEM" rfl rfl rfl rfl,
   C5_amended.2.2.2 fsEnv0 "s3://certs-bucket/pems/absent.pem" "certs-bucket/pems/absent.pem"
     "certs-bucket" "pems/absent.pem" rfl rfl rfl rfl⟩

/-- C6: when the signing bundle loads and parses, the KMS tier is
unconfigured or fails during signer construction, and no file exists at the
configured SIGNING_KEY path, get_signer fails with KeyNotFoundError and no
signer is constructed. -/
theorem C6_key_not_found_is_fatal
    (conf : Conf) (env : AwsEnv) (bundlePath pem : String) (certs : List String)
    (keyPath : String)
    (hbundle : conf.SIGNING_BUNDLE = some bundlePath)
    (hpem : get_certificate bundlePath env = Except.ok pem)
    (hparse : env.parseCerts pem = some certs)
    (hkms : truthy conf.KMS_KEY_ID = false ∨ env.kmsOk = false)
    (hkey : conf.SIGNING_KEY = some keyPath)
    (hfile : env.files keyPath = none) :
    get_signer conf env = Except.error (PyExc.keyNotFoundError keyNotFoundMsg) := by
  rcases hkms with hkms | hkms <;>
    simp [get_signer, hbundle, hpem, hparse, hkms, hkey, hfile]

/-- C6 witness: the theorem at the concrete conf0 and fsEnv0, where the
bundle exists but the signing key file does not. -/
theorem C6_key_not_found_is_fatal_witness :
    get_signer conf0 fsEnv0 = Except.error (PyExc.keyNotFoundError keyNotFoundMsg) :=
  C6_key_not_found_is_fatal conf0 fsEnv0 "/etc/certs/signing-bundle.pem" "BUNDLE-PEM"
    ["BUNDLE-PEM"] "/keys/signing-key.pem" rfl rfl rfl (Or.inl rfl) rfl rfl

/-- C7: the endpoint error translator maps exceptions deterministically by
class: ValueError and FrameworkAuthError become 400 carrying the message,
ConfigurationError becomes 503 with a fixed detail, and every other
exception class becomes 500 with a generic detail determined by the action
alone, so the underlying message is not leaked. -/
theorem C7_error_translation :
    (∀ (action m : String), m ≠ "" →
        handle_endpoint_exception action (PyExc.valueError m) =
          { status_code := 400, detail := m })
  ∧ (∀ (action m : String), m ≠ "" →
        handle_endpoint_exception action (PyExc.frameworkAuthError m) =
          { status_code := 400, detail := m })
  ∧ (∀ (action m : String),
        handle_endpoint_exception action (PyExc.configurationError m) =
          { status_code := 503,
            detail := "Signing service is not properly configured. Please try again later." })
  ∧ (∀ (action : String) (e : PyExc), isClientClass e = false → isConfigClass e = false →
        handle_endpoint_exception action e =
          { status_code := 500, detail := "Unable to " ++ action ++ " at this time." }) := by
  refine ⟨?_, ?_, ?_, ?_⟩
  · intro action m hm
    simp [handle_endpoint_exception, hm]
  · intro action m hm
    simp [handle_endpoint_exception, hm]
  · intro action m
    rfl
  · intro action e h1 h2
    cases e <;> simp_all [isClientClass, isConfigClass, handle_endpoint_exception]

/-- C7 witness: the translation at the concrete exceptions exercised by
the repository's tests. -/
theorem C7_error_translation_witness :
    handle_endpoint_exception "create CAP provenance record"
        (PyExc.valueError "Cap creation failed") =
      { status_code := 400, detail := "Cap creation failed" }
  ∧ handle_endpoint_exception "create CAP provenance record"
        (PyExc.configurationError "no signer") =
      { status_code := 503,
        detail := "Signing service is not properly configured. Please try again later." }
  ∧ handle_endpoint_exception "create CAP provenance record" (PyExc.runtimeError "boom") =
      { status_code := 500,
        detail := "Unable to create CAP provenance record at this time." } :=
  ⟨C7_error_translation.1 "create CAP provenance record" "Cap creation failed" (by decide),
   C7_error_translation.2.2.1 "create CAP provenance record" "no signer",
   C7_error_translation.2.2.2 "create CAP provenance record" (PyExc.runtimeError "boom")
     rfl rfl⟩

/-- A configuration whose ROOT_CA_CERTIFICATE is unset. -/
def confNoRoot : Conf := { conf0 with ROOT_CA_CERTIFICATE := none }

/-- A configuration whose SIGNING_BUNDLE is unset. -/
def confNoBundle : Conf := { conf0 with SIGNING_BUNDLE := none }

/-- C8 counterexample: with ROOT_CA_CERTIFICATE unset, startup fails by
raising ValueError, not ConfigurationError as the claim states. -/
theorem C8_counterexample :
    lifespan confNoRoot fsEnv0 =
      Except.error (PyExc.valueError "ROOT_CA_CERTIFICATE is not set")
  ∧ raisesConfigurationError (lifespan confNoRoot fsEnv0) = false :=
  ⟨rfl, rfl⟩

/-- C8 amended: if ROOT_CA_CERTIFICATE or SIGNING_BUNDLE is unset (or
empty), startup fails before any request is served by raising ValueError
with the corresponding message, and no context is constructed. -/
theorem C8_amended :
    (∀ (conf : Conf) (env : AwsEnv), truthy conf.ROOT_CA_CERTIFICATE = false →
        lifespan conf env = Except.error (PyExc.valueError "ROOT_CA_CERTIFICATE is not set"))
  ∧ (∀ (conf : Conf) (env : AwsEnv), truthy conf.ROOT_CA_CERTIFICATE = true →
        truthy conf.SIGNING_BUNDLE = false →
        lifespan conf env = Except.error (PyExc.valueError "SIGNING_BUNDLE is not set")) := by
  constructor
  · intro conf env h
    simp [lifespan, h]
  · intro conf env h1 h2
    simp [lifespan, h1, h2]

/-- C8 witness: the amended statement at concrete configurations with each
locator unset in turn. -/
theorem C8_amended_witness :
    lifespan confNoRoot fsEnv0 =
      Except.error (PyExc.valueError "ROOT_CA_CERTIFICATE is not set")
  ∧ lifespan confNoBundle fsEnv0 =
      Except.error (PyExc.valueError "SIGNING_BUNDLE is not set") :=
  ⟨C8_amended.1 confNoRoot fsEnv0 rfl, C8_amended.2 confNoBundle fsEnv0 rfl rfl⟩

/-- C1: in the receiving-party workflow, the reconstructed chain reaches a
non-raising verify before any step is appended: along every execution trace
of create_cap_provenance_record, every stepAdded operation is strictly
preceded by a verified operation (and a raising verify ends the run before
any append). -/
theorem C1_verify_completes_before_any_append
    (conf : Conf) (inp : CapInputs) (env : LibEnv) :
    appendAfterVerify false (create_cap_provenance_record conf inp env).1 = true := by
  unfold create_cap_provenance_record
  split
  · rfl
  · split
    · rfl
    · split
      · rfl
      · rfl

/-- C10: the decode endpoint returns the decoded step list only when verify
against the process-wide certificate provider completed without raising;
when verification raises, the raise propagates and no decoded content is
returned. -/
theorem C10_decode_returns_only_verified :
    (∀ (enc : Encoded) (env : LibEnv) (out : List Json),
        decode_provenance_record enc env = Except.ok out →
        env.verifyOutcome = VerifyOutcome.ok)
  ∧ (∀ (enc : Encoded) (env : LibEnv) (m : String),
        env.verifyOutcome = VerifyOutcome.sigInvalid m →
        decode_provenance_record enc env = Except.error (PyExc.signatureInvalidError m))
  ∧ (∀ (enc : Encoded) (env : LibEnv) (m : String),
        env.verifyOutcome = VerifyOutcome.trustChain m →
        decode_provenance_record enc env = Except.error (PyExc.trustChainError m)) := by
  refine ⟨?_, ?_, ?_⟩
  · intro enc env out h
    unfold decode_provenance_record Record.fromEncoded verifyRecord at h
    cases henv : env.verifyOutcome <;> simp [henv] at h
    rfl
  · intro enc env m henv
    unfold decode_provenance_record Record.fromEncoded verifyRecord
    simp [henv]
  · intro enc env m henv
    unfold decode_provenance_record Record.fromEncoded verifyRecord
    simp [henv]

/-- A successful verification environment in which step lookup matches any
step, used for concrete runs. -/
def benignEnv : LibEnv := { verifyOutcome := VerifyOutcome.ok, stepMatches := fun _ _ => true }

/-- An encoded artifact whose embedded trust framework id is not the
configured one. -/
def evilEncoded : Encoded :=
  { ib1Provenance := "https://attacker.example/trust-framework",
    steps := [{ id := "edp-step-1", payload := Json.obj [("type", Json.str "origin")] }] }

/-- C10 witness: a concrete successful decode, from which the theorem
yields that verification succeeded; and a concrete failing verification,
on which the endpoint propagates the raise. -/
theorem C10_decode_returns_only_verified_witness :
    benignEnv.verifyOutcome = VerifyOutcome.ok
  ∧ decode_provenance_record evilEncoded
      { benignEnv with verifyOutcome := VerifyOutcome.sigInvalid "bad signature" } =
      Except.error (PyExc.signatureInvalidError "bad signature") :=
  ⟨C10_decode_returns_only_verified.1 evilEncoded benignEnv
      [Json.obj [("type", Json.str "origin")]] rfl,
   C10_decode_returns_only_verified.2.1 evilEncoded
      { benignEnv with verifyOutcome := VerifyOutcome.sigInvalid "bad signature" }
      "bad signature" rfl⟩

/-- C3 counterexample: the decode endpoint reconstructs the Record passing
the trust framework id read out of the artifact itself, so an artifact
whose embedded id differs from the configured TRUST_FRAMEWORK_URL is
re-opened successfully, with no TrustFrameworkMismatch raised: the claim
that every reconstruction path supplies an independently configured id
fails on decode_provenance_record. -/
theorem C3_counterexample :
    evilEncoded.ib1Provenance ≠ defaultTrustFrameworkUrl
  ∧ decode_provenance_record evilEncoded benignEnv =
      Except.ok [Json.obj [("type", Json.str "origin")]] := by
  exact ⟨by decide, rfl⟩

/-- C3 amended: the receiving-party workflow does supply the configured
trust framework id and fails with TrustFrameworkMismatch whenever the
artifact's embedded id differs; the decode endpoint instead supplies the id
read out of the artifact, so its re-validation is vacuous and it can never
raise TrustFrameworkMismatch. -/
theorem C3_trust_framework_revalidation :
    (∀ (conf : Conf) (inp : CapInputs) (env : LibEnv),
        inp.edp_data_attachment.ib1Provenance ≠ conf.TRUST_FRAMEWORK_URL →
        (create_cap_provenance_record conf inp env).2 =
          Except.error (PyExc.trustFrameworkMismatch tfMismatchMsg))
  ∧ (∀ (enc : Encoded) (env : LibEnv) (m : String),
        decode_provenance_record enc env ≠
          Except.error (PyExc.trustFrameworkMismatch m)) := by
  constructor
  · intro conf inp env h
    have hb : (inp.edp_data_attachment.ib1Provenance == conf.TRUST_FRAMEWORK_URL) = false := by
      simp [h]
    unfold create_cap_provenance_record Record.fromEncoded
    simp [hb]
  · intro enc env m h
    unfold decode_provenance_record Record.fromEncoded verifyRecord at h
    cases henv : env.verifyOutcome <;> simp [henv] at h

/-! Helper lemmas about the reference checker. -/

theorem memStr_append (r : String) (l1 l2 : List String) :
    memStr r (l1 ++ l2) = (memStr r l1 || memStr r l2) := by
  induction l1 with
  | nil => rfl
  | cons x xs ih => simp [memStr, ih, Bool.or_assoc]

theorem memStr_of_mem (r : String) (l : List String) (h : r ∈ l) : memStr r l = true := by
  induction l with
  | nil => cases h
  | cons x xs ih =>
    rcases List.mem_cons.mp h with h1 | h2
    · simp [memStr, h1]
    · simp [memStr, ih h2]

theorem refsOf_cap_receipt (x : String) : refsOf (cap_receipt_payload x) = [x] := rfl

theorem refsOf_cap_permission (conf : Conf) (inp : CapInputs) :
    refsOf (cap_permission_payload conf inp) = [] := rfl

theorem refsOf_cap_intensity (conf : Conf) (inp : CapInputs) :
    refsOf (cap_intensity_payload conf inp) = [] := rfl

theorem refsOf_cap_process (conf : Conf) (a b c : String) :
    refsOf (cap_process_payload conf a b c) = [a, b, c] := rfl

theorem refsOf_cap_transfer (conf : Conf) (inp : CapInputs) (a b : String) :
    refsOf (cap_transfer_payload conf inp a b) = [a, b] := rfl

/-- C4: every step payload appended by either workflow references only ids
of steps strictly earlier in the same chain: the EDP chain checks from an
empty prefix, and the CAP chain checks its appended suffix against the ids
of the decoded prior steps, accumulating in order. -/
theorem C4_references_resolve_strictly_earlier :
    (∀ (conf : Conf) (inp : EdpInputs),
        checkRefs [] (create_edp_provenance_record conf inp).steps = true)
  ∧ (∀ (conf : Conf) (inp : CapInputs) (env : LibEnv) (enc : Encoded),
        (create_cap_provenance_record conf inp env).2 = Except.ok enc →
        checkRefs (inp.edp_data_attachment.steps.map Step.id)
          (enc.steps.drop inp.edp_data_attachment.steps.length) = true) := by
  constructor
  · intro conf inp
    rfl
  · intro conf inp env enc h
    unfold create_cap_provenance_record at h
    split at h
    · simp at h
    · rename_i cap_record heq
      split at h
      · simp at h
      · split at h
        · simp at h
        · rename_i tstep heq2
          simp only [] at h
          cases h
          unfold Record.fromEncoded at heq
          split at heq
          · cases heq
            have hmem : tstep ∈ inp.edp_data_attachment.steps := by
              unfold find_step at heq2
              split at heq2
              · cases heq2
                rename_i hfind
                exact List.mem_of_find?_eq_some hfind
              · cases heq2
            have hm : memStr tstep.id (inp.edp_data_attachment.steps.map Step.id) = true :=
              memStr_of_mem _ _ (List.mem_map_of_mem Step.id hmem)
            simp [add_step, Record.encoded, freshId, List.drop_left, checkRefs, stepRefs,
                  refsOf_cap_receipt, refsOf_cap_permission, refsOf_cap_intensity,
                  refsOf_cap_process, refsOf_cap_transfer, memStr_append, memStr, hm]
          · cases heq

/-! Concrete workflow fixtures. -/

def date0 : PyDate := { year := 2024, month := 1, day := 1 }

def date1 : PyDate := { year := 2024, month := 1, day := 2 }

/-- A naive datetime with nonzero microseconds (the shape the truncation in
the workflows handles correctly). -/
def dtMicro : PyDatetime :=
  { year := 2024, month := 1, day := 1, hour := 0, minute := 0, second := 0,
    microsecond := 123456, utcoffsetMinutes := none }

def dtMicro2 : PyDatetime :=
  { year := 2024, month := 2, day := 1, hour := 0, minute := 0, second := 0,
    microsecond := 123456, utcoffsetMinutes := none }

def edpInp0 : EdpInputs :=
  { from_date := date0, to_date := date1, permission_granted := dtMicro,
    permission_expires := dtMicro2, service_url := "https://edp.example/service",
    account := "acc-123", fapi_id := "fapi-456", cap_member := "cap-member",
    origin_url := "https://edp.example/origin",
    origin_license_url := "https://edp.example/license" }

/-- The concrete EDP artifact produced from edpInp0, used as the prior
chain of the concrete CAP run. -/
def edpEnc0 : Encoded := create_edp_provenance_record conf0 edpInp0

def capInp0 : CapInputs :=
  { edp_data_attachment := edpEnc0, cap_member_id := "cap-member",
    bank_member_id := "bank-member", cap_account := "cap-account",
    cap_permission_granted := dtMicro, cap_permission_expires := dtMicro2,
    grid_intensity_origin := "https://grid.example/origin",
    grid_intensity_license := "https://grid.example/license", postcode := "AB12CD",
    edp_service_url := "https://edp.example/service", edp_member_id := "edp-member",
    bank_service_url := "https://bank.example/service",
    from_date := date0, to_date := date1 }

/-- Like capInp0 but with an attachment whose embedded trust framework id
differs from the configured one. -/
def capInpMismatch : CapInputs := { capInp0 with edp_data_attachment := evilEncoded }

/-- The encoded record of the successful concrete CAP run. -/
def capEnc0 : Encoded :=
  match (create_cap_provenance_record conf0 capInp0 benignEnv).2 with
  | Except.ok e => e
  | Except.error _ => default

/-- C3 witness: the amended statement at the concrete mismatching
attachment (workflow side) and at the concrete decode call. -/
theorem C3_trust_framework_revalidation_witness :
    (create_cap_provenance_record conf0 capInpMismatch benignEnv).2 =
      Except.error (PyExc.trustFrameworkMismatch tfMismatchMsg)
  ∧ decode_provenance_record evilEncoded benignEnv ≠
      Except.error (PyExc.trustFrameworkMismatch tfMismatchMsg) :=
  ⟨C3_trust_framework_revalidation.1 conf0 capInpMismatch benignEnv (by decide),
   C3_trust_framework_revalidation.2 evilEncoded benignEnv tfMismatchMsg⟩

/-- C4 witness: the reference check at the concrete EDP run and at the
concrete successful CAP run on top of it. -/
theorem C4_references_resolve_strictly_earlier_witness :
    checkRefs [] (create_edp_provenance_record conf0 edpInp0).steps = true
  ∧ checkRefs (capInp0.edp_data_attachment.steps.map Step.id)
      (capEnc0.steps.drop capInp0.edp_data_attachment.steps.length) = true :=
  ⟨C4_references_resolve_strictly_earlier.1 conf0 edpInp0,
   C4_references_resolve_strictly_earlier.2 conf0 capInp0 benignEnv capEnc0 rfl⟩

/-! Helper lemmas about the isoformat model and the truncation. -/

theorem toList_mk (l : List Char) : (String.mk l).toList = l := rfl

theorem digit_isDigit (n : Nat) : (digit n).isDigit = true := by
  have h : ∀ m, m < 10 → (Nat.digitChar m).isDigit = true := by decide
  exact h _ (Nat.mod_lt _ (by decide))

theorem digit_ne_dot (n : Nat) : (digit n == '.') = false := by
  have h : ∀ m, m < 10 → (Nat.digitChar m == '.') = false := by decide
  exact h _ (Nat.mod_lt _ (by decide))

theorem baseChars_length (dt : PyDatetime) : dt.baseChars.length = 19 := by
  simp [PyDatetime.baseChars, pad4, pad2]

theorem isoChars_naive_micro (dt : PyDatetime) (h0 : dt.utcoffsetMinutes = none)
    (hm : dt.microsecond ≠ 0) :
    dt.isoformatChars = dt.baseChars ++ ('.' :: pad6 dt.microsecond) := by
  have hb : (dt.microsecond == 0) = false := by simp [hm]
  simp [PyDatetime.isoformatChars, h0, hb]

theorem pyTruncZ_naive_micro (dt : PyDatetime) (h0 : dt.utcoffsetMinutes = none)
    (hm : dt.microsecond ≠ 0) :
    pyTruncZ dt = String.mk (dt.baseChars ++ ['Z']) := by
  rw [pyTruncZ, isoChars_naive_micro dt h0 hm]
  have h7 : ('.' :: pad6 dt.microsecond).length = 7 := by simp [pad6]
  rw [List.length_append, h7, Nat.add_sub_cancel, List.take_left]

theorem isoBaseZ_valid (dt : PyDatetime) :
    isIso8601Zulu (String.mk (dt.baseChars ++ ['Z'])) = true := by
  simp [isIso8601Zulu, toList_mk, PyDatetime.baseChars, pad4, pad2, digit_isDigit]

theorem endsFrac_naive_micro (dt : PyDatetime) (h0 : dt.utcoffsetMinutes = none)
    (hm : dt.microsecond ≠ 0) :
    endsInSevenCharFrac dt.isoformat = true := by
  rw [PyDatetime.isoformat, isoChars_naive_micro dt h0 hm]
  simp [endsInSevenCharFrac, toList_mk, pad6, PyDatetime.baseChars, pad4, pad2,
        digit_isDigit]

theorem offsetChars_length (o : Int) : (offsetChars o).length = 6 := by
  by_cases h : o < 0 <;> simp [offsetChars, h, pad2]

theorem zulu_min_length (s : String) : isIso8601Zulu s = true → 20 ≤ s.toList.length := by
  unfold isIso8601Zulu
  split
  · rename_i y1 y2 y3 y4 m1 m2 d1 d2 h1 h2 n1 n2 s1 s2 rest heq
    intro h
    rw [Bool.and_eq_true] at h
    have hr : 1 ≤ rest.length := by
      rcases h with ⟨-, h2⟩
      revert h2
      split
      · intro _
        simp
      · intro _
        simp
      · intro h2
        cases h2
    have hlen : s.toList.length = rest.length + 19 := by
      rw [heq]
      simp
    omega
  · intro h
    cases h

theorem pyTruncZ_toList_length (dt : PyDatetime) :
    (pyTruncZ dt).toList.length =
      min (dt.isoformatChars.length - 7) dt.isoformatChars.length + 1 := by
  simp [pyTruncZ, toList_mk]

theorem zulu_aware_zero_invalid (dt : PyDatetime) (o : Int)
    (ho : dt.utcoffsetMinutes = some o) (hm : dt.microsecond = 0) :
    isIso8601Zulu (pyTruncZ dt) = false := by
  have hiso : dt.isoformatChars.length = 25 := by
    simp [PyDatetime.isoformatChars, ho, hm, baseChars_length, offsetChars_length]
  have hlen : (pyTruncZ dt).toList.length = 19 := by
    rw [pyTruncZ_toList_length, hiso]
    decide
  cases hb : isIso8601Zulu (pyTruncZ dt)
  · rfl
  · have := zulu_min_length _ hb
    omega

theorem zulu_naive_zero_invalid (dt : PyDatetime)
    (ho : dt.utcoffsetMinutes = none) (hm : dt.microsecond = 0) :
    isIso8601Zulu (pyTruncZ dt) = false := by
  have hiso : dt.isoformatChars.length = 19 := by
    simp [PyDatetime.isoformatChars, ho, hm, baseChars_length]
  have hlen : (pyTruncZ dt).toList.length = 13 := by
    rw [pyTruncZ_toList_length, hiso]
    decide
  cases hb : isIso8601Zulu (pyTruncZ dt)
  · rfl
  · have := zulu_min_length _ hb
    omega

theorem pyTruncZ_ne_stripped (dt : PyDatetime)
    (h : ¬(dt.utcoffsetMinutes = none ∧ dt.microsecond ≠ 0)) :
    pyTruncZ dt ≠ String.mk (dt.baseChars ++ ['Z']) := by
  intro heq
  have hl := congrArg (fun s => s.toList.length) heq
  simp only [pyTruncZ_toList_length, toList_mk] at hl
  rw [List.length_append, baseChars_length] at hl
  rcases ho : dt.utcoffsetMinutes with _ | o <;> by_cases hm : dt.microsecond = 0
  · have hiso : dt.isoformatChars.length = 19 := by
      simp [PyDatetime.isoformatChars, ho, hm, baseChars_length]
    rw [hiso] at hl
    simp at hl
  · exact h ⟨ho, hm⟩
  · have hiso : dt.isoformatChars.length = 25 := by
      simp [PyDatetime.isoformatChars, ho, hm, baseChars_length, offsetChars_length]
    rw [hiso] at hl
    simp at hl
  · have hb : (dt.microsecond == 0) = false := by simp [hm]
    have hiso : dt.isoformatChars.length = 32 := by
      simp [PyDatetime.isoformatChars, ho, hb, baseChars_length, offsetChars_length, pad6]
    rw [hiso] at hl
    simp at hl

theorem endsFrac_naive_zero (dt : PyDatetime)
    (ho : dt.utcoffsetMinutes = none) (hm : dt.microsecond = 0) :
    endsInSevenCharFrac dt.isoformat = false := by
  rw [PyDatetime.isoformat]
  simp [PyDatetime.isoformatChars, ho, hm, endsInSevenCharFrac, toList_mk,
        PyDatetime.baseChars, pad4, pad2, digit_ne_dot]

theorem endsFrac_aware (dt : PyDatetime) (o : Int) (ho : dt.utcoffsetMinutes = some o) :
    endsInSevenCharFrac dt.isoformat = false := by
  rw [PyDatetime.isoformat]
  by_cases hneg : o < 0 <;> by_cases hm : dt.microsecond = 0 <;>
    simp [PyDatetime.isoformatChars, ho, hneg, hm, offsetChars, endsInSevenCharFrac,
          toList_mk, pad6, pad2, PyDatetime.baseChars, pad4, digit_ne_dot]

/-- A timezone-aware datetime with nonzero microseconds. -/
def dtAwareMicro : PyDatetime :=
  { year := 2024, month := 1, day := 1, hour := 12, minute := 30, second := 45,
    microsecond := 123456, utcoffsetMinutes := some 0 }

/-- A timezone-aware datetime with zero microseconds (the claim's own
example input). -/
def dtAwareZero : PyDatetime :=
  { year := 2024, month := 1, day := 1, hour := 12, minute := 30, second := 45,
    microsecond := 0, utcoffsetMinutes := some 0 }

/-- C9 counterexample: for a timezone-aware datetime with nonzero
microseconds, isoformat() does not end in a seven-character
fractional-seconds suffix, yet the emitted truncation keeps five fractional
digits and is still a syntactically valid ISO-8601 UTC timestamp - it is
not a truncation into the time or offset digits, contradicting the claim's
universally quantified final clause. -/
theorem C9_counterexample :
    endsInSevenCharFrac (PyDatetime.isoformat dtAwareMicro) = false
  ∧ pyTruncZ dtAwareMicro = "2024-01-01T12:30:45.12345Z"
  ∧ isIso8601Zulu (pyTruncZ dtAwareMicro) = true :=
  ⟨rfl, rfl, rfl⟩

/-- C9 amended: every permission step emitted by either workflow carries
timestamp and expires fields equal to isoformat() with the last seven
characters removed and a Z appended; the result is the microsecond-stripped
UTC form exactly when isoformat() ends in a seven-character
fractional-seconds suffix (equivalently: naive input with nonzero
microseconds), and in every other case it is not that form; in particular,
for an aware datetime with zero microseconds, or a naive one with zero
microseconds, the emitted string is an invalid truncation into the time or
offset digits (while an aware datetime with nonzero microseconds yields a
syntactically valid string with truncated fractional digits). -/
theorem C9_timestamp_truncation :
    (∀ (dt : PyDatetime),
        pyTruncZ dt =
          String.mk (dt.isoformat.toList.take (dt.isoformat.toList.length - 7) ++ ['Z']))
  ∧ (∀ (conf : Conf) (inp : EdpInputs),
        jsonField (edp_permission_payload conf inp) "timestamp" =
            some (Json.str (pyTruncZ inp.permission_granted))
      ∧ jsonField (edp_permission_payload conf inp) "expires" =
            some (Json.str (pyTruncZ inp.permission_expires)))
  ∧ (∀ (conf : Conf) (inp : CapInputs),
        jsonField (cap_permission_payload conf inp) "timestamp" =
            some (Json.str (pyTruncZ inp.cap_permission_granted))
      ∧ jsonField (cap_permission_payload conf inp) "expires" =
            some (Json.str (pyTruncZ inp.cap_permission_expires)))
  ∧ (∀ (dt : PyDatetime), dt.utcoffsetMinutes = none → dt.microsecond ≠ 0 →
        endsInSevenCharFrac dt.isoformat = true
      ∧ pyTruncZ dt = String.mk (dt.baseChars ++ ['Z'])
      ∧ isIso8601Zulu (pyTruncZ dt) = true)
  ∧ (∀ (dt : PyDatetime), ¬ (dt.utcoffsetMinutes = none ∧ dt.microsecond ≠ 0) →
        endsInSevenCharFrac dt.isoformat = false
      ∧ pyTruncZ dt ≠ String.mk (dt.baseChars ++ ['Z']))
  ∧ (∀ (dt : PyDatetime) (o : Int), dt.utcoffsetMinutes = some o → dt.microsecond = 0 →
        isIso8601Zulu (pyTruncZ dt) = false)
  ∧ (∀ (dt : PyDatetime), dt.utcoffsetMinutes = none → dt.microsecond = 0 →
        isIso8601Zulu (pyTruncZ dt) = false) := by
  refine ⟨fun dt => rfl, fun conf inp => ⟨rfl, rfl⟩, fun conf inp => ⟨rfl, rfl⟩,
          ?_, ?_, ?_, ?_⟩
  · intro dt h0 hm
    refine ⟨endsFrac_naive_micro dt h0 hm, pyTruncZ_naive_micro dt h0 hm, ?_⟩
    rw [pyTruncZ_naive_micro dt h0 hm]
    exact isoBaseZ_valid dt
  · intro dt h
    constructor
    · rcases ho : dt.utcoffsetMinutes with _ | o
      · have hm : dt.microsecond = 0 := by
          by_contra hc
          exact h ⟨ho, hc⟩
        exact endsFrac_naive_zero dt ho hm
      · exact endsFrac_aware dt o ho
    · exact pyTruncZ_ne_stripped dt h
  · intro dt o ho hm
    exact zulu_aware_zero_invalid dt o ho hm
  · intro dt ho hm
    exact zulu_naive_zero_invalid dt ho hm

/-- C9 witness: the amended statement instantiated at concrete inputs of
every kind: a naive datetime with microseconds (valid truncation), an
aware datetime with zero microseconds (invalid truncation) and the
workflow payload fields at concrete inputs. -/
theorem C9_timestamp_truncation_witness :
    jsonField (edp_permission_payload conf0 edpInp0) "timestamp" =
        some (Json.str (pyTruncZ dtMicro))
  ∧ (endsInSevenCharFrac dtMicro.isoformat = true
      ∧ pyTruncZ dtMicro = String.mk (dtMicro.baseChars ++ ['Z'])
      ∧ isIso8601Zulu (pyTruncZ dtMicro) = true)
  ∧ (endsInSevenCharFrac dtAwareZero.isoformat = false
      ∧ pyTruncZ dtAwareZero ≠ String.mk (dtAwareZero.baseChars ++ ['Z']))
  ∧ isIso8601Zulu (pyTruncZ dtAwareZero) = false :=
  ⟨(C9_timestamp_truncation.2.1 conf0 edpInp0).1,
   C9_timestamp_truncation.2.2.2.1 dtMicro rfl (by decide),
   C9_timestamp_truncation.2.2.2.2.1 dtAwareZero (by decide),
   C9_timestamp_truncation.2.2.2.2.2.1 dtAwareZero 0 rfl rfl⟩

end ProvenanceService
